import Mathlib

/-!
Verification of the pagination/sorting state-reconciliation core of the
tanstack-composable-table repository.

The definitions below are shallow embeddings of the TypeScript source:
JavaScript numbers that hold page indices, page sizes and row counts are
modelled as Int (negative intermediate values do occur in the source and
are preserved), URL search objects as association lists from strings to a
small value type, and optional fields as Option.  Each definition carries
a comment naming the source function and file it embeds.
-/

/-- PaginationState from tanstack react-table as used by the repository:
a pageIndex / pageSize pair of JavaScript numbers. -/
structure Pagination where
  pageIndex : Int
  pageSize : Int
deriving DecidableEq

/-- ColumnSort from tanstack react-table: a column id and a descending flag. -/
structure ColumnSort where
  id : String
  desc : Bool
deriving DecidableEq

/-- DataTableSearchParams from src/components/dataTable/DataTableHelpers.ts:
four optional persisted fields. -/
structure DataTableSearchParams where
  pageIndex : Option Int := none
  pageSize : Option Int := none
  sortId : Option String := none
  sortDesc : Option Bool := none
deriving DecidableEq

/-- The payload passed to onSearchChange by updateSearchParams in
src/unnamed/part_001 lines 140-143 (Partial of PaginationState, with
undefined standing for an elided field). -/
structure PaginationSearch where
  pageIndex : Option Int
  pageSize : Option Int
deriving DecidableEq

/-- DataTableResult from the repository: a page of rows plus the total
logical row count. -/
structure DataTableResult (T : Type) where
  rows : List T
  rowCount : Int

/-- JavaScript Math.ceil (a / b) for integer a and positive integer b,
as used in handlePaginationChange of src/unnamed/part_004 line 95. -/
def ceilDivJS (a b : Int) : Int :=
  -((-a).fdiv b)

/-- The validation part of handlePaginationChange in the DataTableProvider
of src/unnamed/part_004, lines 88-101.  The expression (data?.rowCount || 0)
is modelled by Option.getD rowCount 0: the JavaScript or-with-zero maps both
undefined and 0 to 0 and keeps every other number. -/
def handlePaginationValidate (pageSizeOptions : List Int) (rowCount : Option Int)
    (newPagination : Pagination) : Pagination :=
  let validatedPageSize :=
    if newPagination.pageSize ∈ pageSizeOptions then newPagination.pageSize
    else pageSizeOptions.headD 0
  let maxPageIndex := max 0 (ceilDivJS (rowCount.getD 0) validatedPageSize - 1)
  let validatedPageIndex := min (max 0 newPagination.pageIndex) maxPageIndex
  { pageIndex := validatedPageIndex, pageSize := validatedPageSize }

/-- handlePaginationChange of src/unnamed/part_004, lines 88-104, seen as the
value handed to the onPaginationChange callback: the source invokes the
callback unconditionally with the validated pagination (there is no
comparison against the current state in that handler), so the result is
always some. -/
def handlePaginationChange (pageSizeOptions : List Int) (rowCount : Option Int)
    (newPagination : Pagination) : Option Pagination :=
  some (handlePaginationValidate pageSizeOptions rowCount newPagination)

/-- The validation part of updateSearchParams in src/unnamed/part_001
lines 134-137, identical to src/components/DataTableContext.tsx lines 80-82:
the page size is replaced when not among pageSizeOptions, and the page index
is clamped by Math.min(Math.max(0, pageIndex), (data?.rowCount || 0) *
pageSize - 1) where pageSize is the already validated one (the source
mutates newPagination.pageSize on the previous line). -/
def updateSearchParamsValidate (pageSizeOptions : List Int) (rowCount : Option Int)
    (newPagination : Pagination) : Pagination :=
  let pageSize :=
    if newPagination.pageSize ∈ pageSizeOptions then newPagination.pageSize
    else pageSizeOptions.headD 0
  let pageIndex := min (max 0 newPagination.pageIndex) (rowCount.getD 0 * pageSize - 1)
  { pageIndex := pageIndex, pageSize := pageSize }

/-- updateSearchParams in src/unnamed/part_001 lines 134-144 (identical in
src/components/DataTableContext.tsx lines 80-90), seen as the optional
payload handed to onSearchChange: none when the validated state equals the
current pagination (the early return), otherwise the default-elided search
update. -/
def updateSearchParams (pageSizeOptions : List Int) (defaultPageSize : Int)
    (rowCount : Option Int) (pagination newPagination : Pagination) :
    Option PaginationSearch :=
  let v := updateSearchParamsValidate pageSizeOptions rowCount newPagination
  if v.pageIndex = pagination.pageIndex ∧ v.pageSize = pagination.pageSize then none
  else some
    { pageIndex := if v.pageIndex = 0 then none else some v.pageIndex
      pageSize := if v.pageSize = defaultPageSize then none else some v.pageSize }

/-- The page-size select onChange handler of the DataTable in
src/unnamed/part_001 lines 352-361: it requests the new page size together
with pageIndex = Math.floor(pageIndex * pageSize / newPageSize) through
updateSearchParams. -/
def pageSizeSelectOnChange (pageSizeOptions : List Int) (defaultPageSize : Int)
    (rowCount : Option Int) (pagination : Pagination) (newPageSize : Int) :
    Option PaginationSearch :=
  updateSearchParams pageSizeOptions defaultPageSize rowCount pagination
    { pageIndex := (pagination.pageIndex * pagination.pageSize).fdiv newPageSize
      pageSize := newPageSize }

/-- The page-size select onChange handler of the DataTable in
src/components/DataTable.tsx lines 355-363: it spreads the current
pagination, overrides pageSize with the selected value and resets pageIndex
to 0 (the source comment reads Reset to first page when changing page
size), then passes this state to setPagination and
updateURLWithPagination unconditionally. -/
def pageSizeSelectOnChangeURL (pagination : Pagination) (newPageSize : Int) :
    Pagination :=
  { pagination with pageSize := newPageSize, pageIndex := 0 }

/-- The pageSizeOptions validation performed at construction by the DataTable
of src/unnamed/part_001 lines 112-119 and by the DataTableProvider of
src/unnamed/part_004 lines 71-78: throws on an empty list, then on any
non-positive member. -/
def validatePageSizeOptions (pageSizeOptions : List Int) : Except String Unit :=
  if pageSizeOptions = [] then
    Except.error "pageSizeOptions must be a non-empty array"
  else if pageSizeOptions.any (fun size => size ≤ 0) then
    Except.error "All pageSizeOptions values must be greater than 0"
  else
    Except.ok ()

/-- searchParamsToPagination from DataTableHelpers.ts lines 15-23: each field
falls back to its default only when absent; present values pass through
without any validation. -/
def searchParamsToPagination (searchParams : DataTableSearchParams)
    (defaultPageSize : Int) : Pagination :=
  { pageIndex := searchParams.pageIndex.getD 0
    pageSize := searchParams.pageSize.getD defaultPageSize }

/-- searchParamsToColumnSort from DataTableHelpers.ts lines 28-39: the
JavaScript truthiness test if (searchParams.sortId) is false both for an
absent sortId and for the empty string. -/
def searchParamsToColumnSort (searchParams : DataTableSearchParams)
    (defaultSort : ColumnSort) : ColumnSort :=
  match searchParams.sortId with
  | some s =>
      if s ≠ "" then { id := s, desc := searchParams.sortDesc.getD false }
      else defaultSort
  | none => defaultSort

/-- paginationToSearchParams from DataTableHelpers.ts lines 44-65: pageIndex
is elided when not strictly positive, pageSize when equal to the default. -/
def paginationToSearchParams (pagination : Pagination) (defaultPageSize : Int) :
    DataTableSearchParams :=
  { pageIndex := if pagination.pageIndex > 0 then some pagination.pageIndex else none
    pageSize := if pagination.pageSize ≠ defaultPageSize then some pagination.pageSize else none
    sortId := none
    sortDesc := none }

/-- columnSortToSearchParams from DataTableHelpers.ts lines 70-91: both sort
fields are elided for the default sort; otherwise sortId is set and sortDesc
is set only when descending. -/
def columnSortToSearchParams (columnSort defaultSort : ColumnSort) :
    DataTableSearchParams :=
  if columnSort.id ≠ defaultSort.id ∨ columnSort.desc ≠ defaultSort.desc then
    { sortId := some columnSort.id
      sortDesc := if columnSort.desc then some true else none
      pageIndex := none
      pageSize := none }
  else
    { sortId := none, sortDesc := none, pageIndex := none, pageSize := none }

/-- The combined persisted representation written for a pagination and sort
state: the pagination fields from paginationToSearchParams merged with the
sort fields from columnSortToSearchParams, as done by the handlers of
createSearchParamHandlers in DataTableHelpers.ts. -/
def encodeState (pagination : Pagination) (columnSort : ColumnSort)
    (defaultPageSize : Int) (defaultSort : ColumnSort) : DataTableSearchParams :=
  { pageIndex := (paginationToSearchParams pagination defaultPageSize).pageIndex
    pageSize := (paginationToSearchParams pagination defaultPageSize).pageSize
    sortId := (columnSortToSearchParams columnSort defaultSort).sortId
    sortDesc := (columnSortToSearchParams columnSort defaultSort).sortDesc }

/-- JavaScript parseInt(s, 10) restricted to what the repository feeds it:
leading whitespace is skipped, an optional sign is read, then a maximal run
of decimal digits; none models NaN (no digits). -/
def jsParseInt (s : String) : Option Int :=
  let digitsVal : List Char → Option Nat := fun cs =>
    let ds := cs.takeWhile Char.isDigit
    if ds = [] then none
    else some (ds.foldl (fun acc c => 10 * acc + (c.toNat - 48)) 0)
  match s.toList.dropWhile Char.isWhitespace with
  | '-' :: rest => (digitsVal rest).map (fun n => -(n : Int))
  | '+' :: rest => (digitsVal rest).map (fun n => (n : Int))
  | rest => (digitsVal rest).map (fun n => (n : Int))

/-- getPaginationFromURL from src/components/DataTable.tsx lines 51-76:
each raw URL parameter is an optional string; a missing, non-numeric,
negative pageIndex falls back to 0, and a missing, non-numeric, non-positive
or out-of-set pageSize falls back to defaultPageSize. -/
def getPaginationFromURL (urlPageIndex urlPageSize : Option String)
    (pageSizeOptions : List Int) (defaultPageSize : Int) : Pagination :=
  let pageIndex :=
    match urlPageIndex with
    | none => 0
    | some s =>
        match jsParseInt s with
        | some parsed => if 0 ≤ parsed then parsed else 0
        | none => 0
  let pageSize :=
    match urlPageSize with
    | none => defaultPageSize
    | some s =>
        match jsParseInt s with
        | some parsed =>
            if 0 < parsed ∧ parsed ∈ pageSizeOptions then parsed else defaultPageSize
        | none => defaultPageSize
  { pageIndex := pageIndex, pageSize := pageSize }

/-- The three mutually exclusive presentations CardView can choose. -/
inductive ViewState
  | spinner
  | emptyState
  | cards
deriving DecidableEq

/-- The presentation choice of CardView in
src/components/dataTable/CardView.tsx lines 22-47: the spinner while
isLoading, the empty-state block when data is absent or has no rows, and the
card grid otherwise. -/
def cardView {T : Type} (isLoading : Bool) (data : Option (DataTableResult T)) :
    ViewState :=
  if isLoading then ViewState.spinner
  else
    match data with
    | none => ViewState.emptyState
    | some d => if d.rows.length = 0 then ViewState.emptyState else ViewState.cards

/-- A value stored in a URL search object: the repository stores numbers,
strings and booleans. -/
inductive SearchValue
  | num (n : Int)
  | str (s : String)
  | boolv (b : Bool)
deriving DecidableEq

/-- A URL search object, modelled as an association list of keys to
values (insertion order is kept, lookups take the first match). -/
abbrev Search : Type := List (String × SearchValue)

/-- Removing a key from a search object (the delete operator of the source
handlers). -/
def searchDelete (k : String) (s : Search) : Search :=
  List.filter (fun kv => decide (kv.1 ≠ k)) s

/-- Writing a key in a search object (assignment in the source handlers). -/
def searchSet (k : String) (v : SearchValue) (s : Search) : Search :=
  searchDelete k s ++ [(k, v)]

/-- Reading a key from a search object. -/
def searchLookup (k : String) (s : Search) : Option SearchValue :=
  (List.find? (fun kv => decide (kv.1 = k)) s).map (fun kv => kv.2)

/-- The per-key step of the source handlers for a numeric field: an
undefined updated value deletes the key, a present one sets it. -/
def searchUpdateNum (key : String) (upd : Option Int) (s : Search) : Search :=
  match upd with
  | none => searchDelete key s
  | some v => searchSet key (SearchValue.num v) s

/-- The per-key step of the source handlers for a string field. -/
def searchUpdateStr (key : String) (upd : Option String) (s : Search) : Search :=
  match upd with
  | none => searchDelete key s
  | some v => searchSet key (SearchValue.str v) s

/-- The per-key step of the source handlers for a boolean field. -/
def searchUpdateBool (key : String) (upd : Option Bool) (s : Search) : Search :=
  match upd with
  | none => searchDelete key s
  | some b => searchSet key (SearchValue.boolv b) s

/-- The onPaginationChange handler produced by createSearchParamHandlers in
DataTableHelpers.ts lines 101-123: the previous search object is copied and
only the pageIndex and pageSize keys are deleted or set, following
paginationToSearchParams. -/
def onPaginationChangeSearch (pagination : Pagination) (defaultPageSize : Int)
    (prev : Search) : Search :=
  let params := paginationToSearchParams pagination defaultPageSize
  searchUpdateNum "pageSize" params.pageSize
    (searchUpdateNum "pageIndex" params.pageIndex prev)

/-- The onColumnSortChange handler produced by createSearchParamHandlers in
DataTableHelpers.ts lines 125-147: only the sortId and sortDesc keys are
deleted or set, following columnSortToSearchParams. -/
def onColumnSortChangeSearch (columnSort defaultSort : ColumnSort)
    (prev : Search) : Search :=
  let params := columnSortToSearchParams columnSort defaultSort
  searchUpdateBool "sortDesc" params.sortDesc
    (searchUpdateStr "sortId" params.sortId prev)

/-- updateURLWithPagination from src/components/DataTable.tsx lines 108-127:
starting from the current URL, the pageIndex and pageSize parameters are
deleted and then re-added (as strings) only when different from their
defaults; every other parameter is carried over by construction of the URL
object. -/
def updateURLWithPagination (newPagination : Pagination) (defaultPageSize : Int)
    (url : Search) : Search :=
  let u1 := searchDelete "pageSize" (searchDelete "pageIndex" url)
  let u2 :=
    if newPagination.pageIndex ≠ 0 then
      searchSet "pageIndex" (SearchValue.str (toString newPagination.pageIndex)) u1
    else u1
  if newPagination.pageSize ≠ defaultPageSize then
    searchSet "pageSize" (SearchValue.str (toString newPagination.pageSize)) u2
  else u2

/-- The onPaginationChange handler of useDataTableURLState in
src/unnamed/part_002 lines 274-293: an updates object holding only the
pageIndex and pageSize fields is folded into the previous search object,
deleting undefined entries and setting the rest. -/
def urlStateOnPaginationChange (pagination : Pagination) (defaultPageSize : Int)
    (prev : Search) : Search :=
  let updIndex : Option Int :=
    if pagination.pageIndex > 0 then some pagination.pageIndex else none
  let updSize : Option Int :=
    if pagination.pageSize ≠ defaultPageSize then some pagination.pageSize else none
  searchUpdateNum "pageSize" updSize (searchUpdateNum "pageIndex" updIndex prev)

/-- The onSortingChange handler of useDataTableURLState in
src/unnamed/part_002 lines 295-316: only the sortId and sortDesc fields are
updated; sortDesc uses the or-with-undefined idiom, eliding a false flag. -/
def urlStateOnSortingChange (sorting defaultSort : ColumnSort)
    (prev : Search) : Search :=
  let updId : Option String :=
    if sorting.id ≠ defaultSort.id ∨ sorting.desc ≠ defaultSort.desc then some sorting.id
    else none
  let updDesc : Option Bool :=
    if sorting.id ≠ defaultSort.id ∨ sorting.desc ≠ defaultSort.desc then
      (if sorting.desc then some true else none)
    else none
  searchUpdateBool "sortDesc" updDesc (searchUpdateStr "sortId" updId prev)

lemma searchLookup_delete_ne (k k' : String) (s : Search) (h : k ≠ k') :
    searchLookup k (searchDelete k' s) = searchLookup k s := by
  induction s with
  | nil => rfl
  | cons a t ih =>
      by_cases ha : a.1 = k'
      · simp only [searchDelete, List.filter] at ih ⊢
        rw [show (decide (a.1 ≠ k')) = false by simp [ha]]
        rw [ih]
        simp only [searchLookup, List.find?]
        rw [show (decide (a.1 = k)) = false by simp [ha]; exact Ne.symm h]
      · simp only [searchDelete, List.filter] at ih ⊢
        rw [show (decide (a.1 ≠ k')) = true by simp [ha]]
        simp only [searchLookup, List.find?] at ih ⊢
        cases hk : decide (a.1 = k) with
        | false => exact ih
        | true => rfl

lemma searchLookup_set_ne (k k' : String) (v : SearchValue) (s : Search) (h : k ≠ k') :
    searchLookup k (searchSet k' v s) = searchLookup k s := by
  have h2 : List.find? (fun kv => decide (kv.1 = k)) ([(k', v)] : Search) = none := by
    simp [List.find?, Ne.symm h]
  rw [searchSet, searchLookup, List.find?_append, h2, Option.or_none]
  exact searchLookup_delete_ne k k' s h

lemma searchLookup_delete_self (k : String) (s : Search) :
    searchLookup k (searchDelete k s) = none := by
  induction s with
  | nil => rfl
  | cons a t ih =>
      by_cases ha : a.1 = k
      · simp only [searchDelete, List.filter] at ih ⊢
        rw [show (decide (a.1 ≠ k)) = false by simp [ha]]
        exact ih
      · simp only [searchDelete, List.filter] at ih ⊢
        rw [show (decide (a.1 ≠ k)) = true by simp [ha]]
        simp only [searchLookup, List.find?] at ih ⊢
        rw [show (decide (a.1 = k)) = false by simp [ha]]
        exact ih

lemma searchLookup_updateNum_ne (k key : String) (upd : Option Int) (s : Search)
    (h : k ≠ key) : searchLookup k (searchUpdateNum key upd s) = searchLookup k s := by
  cases upd with
  | none => exact searchLookup_delete_ne k key s h
  | some v => exact searchLookup_set_ne k key (SearchValue.num v) s h

lemma searchLookup_updateStr_ne (k key : String) (upd : Option String) (s : Search)
    (h : k ≠ key) : searchLookup k (searchUpdateStr key upd s) = searchLookup k s := by
  cases upd with
  | none => exact searchLookup_delete_ne k key s h
  | some v => exact searchLookup_set_ne k key (SearchValue.str v) s h

lemma searchLookup_updateBool_ne (k key : String) (upd : Option Bool) (s : Search)
    (h : k ≠ key) : searchLookup k (searchUpdateBool key upd s) = searchLookup k s := by
  cases upd with
  | none => exact searchLookup_delete_ne k key s h
  | some b => exact searchLookup_set_ne k key (SearchValue.boolv b) s h

example : handlePaginationValidate [10, 20, 30, 40, 50] (some 95) ⟨50, 10⟩ = ⟨9, 10⟩ := by decide
example : updateSearchParamsValidate [10, 20, 30, 40, 50] (some 95) ⟨50, 10⟩ = ⟨50, 10⟩ := by decide
example : updateSearchParamsValidate [10, 20, 30, 40, 50] none ⟨5, 10⟩ = ⟨-1, 10⟩ := by decide
example : handlePaginationValidate [10, 20, 30, 40, 50] none ⟨5, 10⟩ = ⟨0, 10⟩ := by decide
example : jsParseInt "-5" = some (-5) := by decide
example : jsParseInt "abc" = none := by decide
example : jsParseInt " 42" = some 42 := by decide
example : pageSizeSelectOnChange [10, 20, 30, 40, 50] 10 (some 95) ⟨2, 10⟩ 20 =
    some ⟨some 1, some 20⟩ := by decide
example : pageSizeSelectOnChange [10, 20, 30, 40, 50] 10 (some 2) ⟨99, 50⟩ 10 =
    some ⟨some 19, none⟩ := by decide

/-- Claim C1: with rowCount = 95 and pageSize = 10, a requested pageIndex of
50 should commit pageIndex 9 = clamp(50, 0, ceil(95 / 10) - 1) in every
pagination handler.  The handlePaginationChange validation of
src/unnamed/part_004 does clamp to 9, but updateSearchParams of
src/unnamed/part_001 line 136 and src/components/DataTableContext.tsx
line 82 clamps against rowCount * pageSize - 1 = 949 instead of the
ceiling-division bound, so it commits pageIndex 50 and writes pageIndex=50
to the search params: the claim fails on those handlers. -/
theorem C1_clamp_code_bug :
    handlePaginationValidate [10, 20, 30, 40, 50] (some 95) ⟨50, 10⟩ = ⟨9, 10⟩ ∧
    updateSearchParamsValidate [10, 20, 30, 40, 50] (some 95) ⟨50, 10⟩ = ⟨50, 10⟩ ∧
    updateSearchParams [10, 20, 30, 40, 50] 10 (some 95) ⟨0, 10⟩ ⟨50, 10⟩ =
      some ⟨some 50, none⟩ := by decide

/-- Claim C3, counterexample: in the controlled mode of
src/unnamed/part_004, with current pagination pageIndex 0 and pageSize 10
and rowCount 95, requesting that very state validates to exactly the
current state, yet handlePaginationChange still invokes the
onPaginationChange callback with it (the handler has no equality check), so
the no-commit claim fails in that mode. -/
theorem C3_counterexample :
    handlePaginationValidate [10, 20, 30, 40, 50] (some 95) ⟨0, 10⟩ = ⟨0, 10⟩ ∧
    handlePaginationChange [10, 20, 30, 40, 50] (some 95) ⟨0, 10⟩ = some ⟨0, 10⟩ := by
  decide

/-- Claim C3, amended: only updateSearchParams (src/unnamed/part_001 lines
134-144 and src/components/DataTableContext.tsx lines 80-90) suppresses the
commit when the validated state equals the current pagination; the
handlePaginationChange handler of src/unnamed/part_004 passes the validated
state to the onPaginationChange callback unconditionally. -/
theorem C3_amended (pageSizeOptions : List Int) (defaultPageSize : Int)
    (rowCount : Option Int) (pagination newPagination : Pagination)
    (h : updateSearchParamsValidate pageSizeOptions rowCount newPagination = pagination) :
    updateSearchParams pageSizeOptions defaultPageSize rowCount pagination newPagination =
      none ∧
    handlePaginationChange pageSizeOptions rowCount newPagination =
      some (handlePaginationValidate pageSizeOptions rowCount newPagination) := by
  refine ⟨?_, rfl⟩
  simp only [updateSearchParams, h]
  simp

theorem C3_amended_witness :
    updateSearchParams [10, 20, 30, 40, 50] 10 (some 95) ⟨0, 10⟩ ⟨0, 10⟩ = none ∧
    handlePaginationChange [10, 20, 30, 40, 50] (some 95) ⟨0, 10⟩ =
      some (handlePaginationValidate [10, 20, 30, 40, 50] (some 95) ⟨0, 10⟩) :=
  C3_amended [10, 20, 30, 40, 50] 10 (some 95) ⟨0, 10⟩ ⟨0, 10⟩ (by decide)

/-- Claim C4, counterexample: before any fetch result (rowCount undefined),
requesting pageIndex 5 is not committed unchanged: the
handlePaginationChange validation of src/unnamed/part_004 clamps it to 0,
and updateSearchParams of src/unnamed/part_001 clamps it to -1, because
both substitute 0 for the undefined rowCount. -/
theorem C4_counterexample :
    handlePaginationValidate [10, 20, 30, 40, 50] none ⟨5, 10⟩ = ⟨0, 10⟩ ∧
    updateSearchParamsValidate [10, 20, 30, 40, 50] none ⟨5, 10⟩ = ⟨-1, 10⟩ ∧
    (5 : Int) ≠ 0 := by decide

/-- Claim C4, amended: when rowCount is unknown both handlers treat it as 0
through the or-with-zero idiom, so an upper clamp is applied after all: the
part_004 validation always commits pageIndex 0, and the updateSearchParams
validation of part_001 and DataTableContext.tsx always computes
pageIndex -1 (min of a non-negative value and 0 * pageSize - 1). -/
theorem C4_amended (pageSizeOptions : List Int) (newPagination : Pagination) :
    (handlePaginationValidate pageSizeOptions none newPagination).pageIndex = 0 ∧
    (updateSearchParamsValidate pageSizeOptions none newPagination).pageIndex = -1 := by
  constructor
  · simp only [handlePaginationValidate, ceilDivJS, Option.getD]
    simp only [neg_zero, Int.zero_fdiv]
    omega
  · simp only [updateSearchParamsValidate, Option.getD]
    simp only [zero_mul]
    omega

/-- Claim C5, counterexample: with a fetched rowCount of 0, a requested
pageIndex of 3 does not resolve to 0 in the updateSearchParams validation of
src/unnamed/part_001 and src/components/DataTableContext.tsx: it resolves
to -1. -/
theorem C5_counterexample :
    updateSearchParamsValidate [10, 20, 30, 40, 50] (some 0) ⟨3, 10⟩ = ⟨-1, 10⟩ ∧
    (-1 : Int) ≠ 0 := by decide

/-- Claim C5, amended: with rowCount 0 the part_004 validation resolves
every requested pageIndex to 0 while the updateSearchParams validation
resolves it to -1; and CardView chooses the empty-state presentation
exactly when not loading and the data is either absent or has an empty row
list. -/
theorem C5_amended (pageSizeOptions : List Int) (newPagination : Pagination)
    (T : Type) (isLoading : Bool) (data : Option (DataTableResult T)) :
    (handlePaginationValidate pageSizeOptions (some 0) newPagination).pageIndex = 0 ∧
    (updateSearchParamsValidate pageSizeOptions (some 0) newPagination).pageIndex = -1 ∧
    (cardView isLoading data = ViewState.emptyState ↔
      isLoading = false ∧ (data = none ∨ ∃ r, data = some r ∧ r.rows = [])) := by
  refine ⟨?_, ?_, ?_⟩
  · simp only [handlePaginationValidate, ceilDivJS, Option.getD]
    simp only [neg_zero, Int.zero_fdiv]
    omega
  · simp only [updateSearchParamsValidate, Option.getD]
    simp only [zero_mul]
    omega
  · cases isLoading with
    | true => simp [cardView]
    | false =>
        cases data with
        | none => simp [cardView]
        | some d =>
            by_cases h : d.rows.length = 0
            · simp [cardView, h, List.length_eq_zero.mp h]
            · simp only [cardView, Bool.false_eq_true, if_false, h, if_neg h]
              simp only [List.length_eq_zero] at h
              simp [h]

/-- Claim C7: in both pagination validations, a requested pageSize that is
not among pageSizeOptions is replaced by the first option (headD 0 equals
the first element for the non-empty lists guarded by the construction-time
check). -/
theorem C7_invalid_page_size_fallback (pageSizeOptions : List Int)
    (rowCount : Option Int) (newPagination : Pagination)
    (h : newPagination.pageSize ∉ pageSizeOptions) :
    (updateSearchParamsValidate pageSizeOptions rowCount newPagination).pageSize =
      pageSizeOptions.headD 0 ∧
    (handlePaginationValidate pageSizeOptions rowCount newPagination).pageSize =
      pageSizeOptions.headD 0 := by
  constructor
  · simp [updateSearchParamsValidate, h]
  · simp [handlePaginationValidate, h]

theorem C7_invalid_page_size_fallback_witness :
    (7 : Int) ∉ ([10, 20, 30, 40, 50] : List Int) ∧
    (updateSearchParamsValidate [10, 20, 30, 40, 50] (some 95) ⟨0, 7⟩).pageSize = 10 ∧
    (handlePaginationValidate [10, 20, 30, 40, 50] (some 95) ⟨0, 7⟩).pageSize = 10 :=
  have h := C7_invalid_page_size_fallback [10, 20, 30, 40, 50] (some 95) ⟨0, 7⟩ (by decide)
  ⟨by decide, h.1.trans (by decide), h.2.trans (by decide)⟩

/-- Claim C9: the construction-time validation shared by the DataTable of
src/unnamed/part_001 lines 112-119 and the DataTableProvider of
src/unnamed/part_004 lines 71-78 succeeds exactly for a non-empty
pageSizeOptions list whose members are all positive, and throws otherwise. -/
theorem C9_config_validation (pageSizeOptions : List Int) :
    validatePageSizeOptions pageSizeOptions = Except.ok () ↔
      (pageSizeOptions ≠ [] ∧ ∀ size ∈ pageSizeOptions, 0 < size) := by
  unfold validatePageSizeOptions
  split_ifs with h1 h2
  · simp [h1]
  · rw [List.any_eq_true] at h2
    obtain ⟨x, hx, hx0⟩ := h2
    simp only [decide_eq_true_eq] at hx0
    constructor
    · intro h
      exact absurd h (by simp)
    · intro h
      have := h.2 x hx
      omega
  · constructor
    · intro _
      refine ⟨h1, ?_⟩
      intro size hs
      by_contra hc
      push_neg at hc
      exact h2 (List.any_eq_true.mpr ⟨size, hs, by simpa using hc⟩)
    · intro _
      rfl

/-- Claim C2: decoding the encoded persisted representation restores the
state exactly, for every valid reachable state: non-negative pageIndex and
a sort column with a non-empty id (the source only ever sorts by columns
that pass the truthiness filter on their identifier in part_004 line 82, so
reachable sort ids are non-empty). -/
theorem C2_roundtrip (pagination : Pagination) (columnSort : ColumnSort)
    (defaultPageSize : Int) (defaultSort : ColumnSort)
    (hIndex : 0 ≤ pagination.pageIndex) (hId : columnSort.id ≠ "") :
    searchParamsToPagination
        (encodeState pagination columnSort defaultPageSize defaultSort) defaultPageSize =
      pagination ∧
    searchParamsToColumnSort
        (encodeState pagination columnSort defaultPageSize defaultSort) defaultSort =
      columnSort := by
  obtain ⟨pi, ps⟩ := pagination
  obtain ⟨cid, cdesc⟩ := columnSort
  obtain ⟨did, ddesc⟩ := defaultSort
  simp only at hIndex hId
  constructor
  · simp only [encodeState, paginationToSearchParams, searchParamsToPagination]
    by_cases h1 : pi > 0
    · by_cases h2 : ps = defaultPageSize
      · simp [h1, h2]
      · simp [h1, h2]
    · have hpi : pi = 0 := by omega
      by_cases h2 : ps = defaultPageSize
      · simp [h1, hpi, h2]
      · simp [h1, hpi, h2]
  · simp only [encodeState, columnSortToSearchParams, searchParamsToColumnSort]
    by_cases h3 : cid = did
    · by_cases h4 : cdesc = ddesc
      · simp [h3, h4]
      · subst h3
        cases cdesc with
        | true => simp [h4, hId]
        | false => simp [h4, hId]
    · cases cdesc with
      | true => simp [h3, hId]
      | false => simp [h3, hId]

theorem C2_roundtrip_witness :
    searchParamsToPagination
        (encodeState ⟨3, 20⟩ ⟨"name", true⟩ 10 ⟨"id", false⟩) 10 = ⟨3, 20⟩ ∧
    searchParamsToColumnSort
        (encodeState ⟨3, 20⟩ ⟨"name", true⟩ 10 ⟨"id", false⟩) ⟨"id", false⟩ =
      ⟨"name", true⟩ :=
  C2_roundtrip ⟨3, 20⟩ ⟨"name", true⟩ 10 ⟨"id", false⟩ (by decide) (by decide)

/-- Claim C6, counterexample: neither cited page-size select handler
commits the floor value in general.  The handler of src/unnamed/part_001
lines 352-361 requests pageIndex = floor(99 * 50 / 10) = 495, but
updateSearchParams then clamps it against rowCount * newPageSize - 1 = 19,
so the committed pageIndex is 19, not 495 (state pageIndex 99 and pageSize
50 with rowCount 2 is reachable by loading such a URL directly, since the
current pagination is read from the search params unvalidated).  And the
handler of src/components/DataTable.tsx lines 355-363 resets pageIndex to 0
on every page-size change, so even on the claims own particular example it
commits 0 where the claim promises floor(2 * 10 / 20) = 1. -/
theorem C6_counterexample :
    pageSizeSelectOnChange [10, 20, 30, 40, 50] 10 (some 2) ⟨99, 50⟩ 10 =
      some ⟨some 19, none⟩ ∧
    ((99 : Int) * 50).fdiv 10 = 495 ∧ (19 : Int) ≠ 495 ∧
    pageSizeSelectOnChangeURL ⟨2, 10⟩ 20 = ⟨0, 20⟩ ∧
    ((2 : Int) * 10).fdiv 20 = 1 ∧ (0 : Int) ≠ 1 := by decide

/-- Claim C6, amended: only the select handler of src/unnamed/part_001
requests pageIndex = floor(pageIndex * pageSize / newPageSize), and that
offset preserving index is what gets committed (default-elided) exactly
when the updateSearchParams clamp does not bite, i.e. when the floor value
is within the rowCount * newPageSize - 1 bound and the validated state
differs from the current one; the select handler of
src/components/DataTable.tsx instead resets pageIndex to 0 on every
page-size change, so its committed state is always pageIndex 0 with the
new size, and the pageIndex key is always elided from the URL it writes. -/
theorem C6_amended (pageSizeOptions : List Int) (defaultPageSize : Int)
    (rowCount : Option Int) (pagination : Pagination) (newPageSize : Int)
    (hMem : newPageSize ∈ pageSizeOptions) (hPos : 0 < newPageSize)
    (hIdx : 0 ≤ pagination.pageIndex) (hSize : 0 ≤ pagination.pageSize)
    (hFit : (pagination.pageIndex * pagination.pageSize).fdiv newPageSize ≤
      rowCount.getD 0 * newPageSize - 1)
    (hChange : ¬((pagination.pageIndex * pagination.pageSize).fdiv newPageSize =
        pagination.pageIndex ∧ newPageSize = pagination.pageSize)) :
    pageSizeSelectOnChange pageSizeOptions defaultPageSize rowCount pagination newPageSize =
      some
        { pageIndex :=
            if (pagination.pageIndex * pagination.pageSize).fdiv newPageSize = 0 then none
            else some ((pagination.pageIndex * pagination.pageSize).fdiv newPageSize)
          pageSize := if newPageSize = defaultPageSize then none else some newPageSize } ∧
    (∀ (p : Pagination) (newPS dPS : Int) (url : Search),
      pageSizeSelectOnChangeURL p newPS = ⟨0, newPS⟩ ∧
      searchLookup "pageIndex"
        (updateURLWithPagination (pageSizeSelectOnChangeURL p newPS) dPS url) = none) := by
  constructor
  · have hq : 0 ≤ (pagination.pageIndex * pagination.pageSize).fdiv newPageSize :=
      Int.fdiv_nonneg (mul_nonneg hIdx hSize) (le_of_lt hPos)
    have hval : updateSearchParamsValidate pageSizeOptions rowCount
        ⟨(pagination.pageIndex * pagination.pageSize).fdiv newPageSize, newPageSize⟩ =
        ⟨(pagination.pageIndex * pagination.pageSize).fdiv newPageSize, newPageSize⟩ := by
      simp only [updateSearchParamsValidate, hMem, if_pos]
      have : min (max 0 ((pagination.pageIndex * pagination.pageSize).fdiv newPageSize))
          (rowCount.getD 0 * newPageSize - 1) =
          (pagination.pageIndex * pagination.pageSize).fdiv newPageSize := by
        omega
      simp [this]
    simp only [pageSizeSelectOnChange, updateSearchParams, hval]
    rw [if_neg hChange]
  · intro p newPS dPS url
    refine ⟨rfl, ?_⟩
    have hne : ("pageIndex" : String) ≠ "pageSize" := by decide
    simp only [pageSizeSelectOnChangeURL, updateURLWithPagination]
    simp only [ne_eq, not_true_eq_false, if_false, ite_not, ite_true]
    split_ifs with hc
    · rw [searchLookup_delete_ne "pageIndex" "pageSize" _ hne, searchLookup_delete_self]
    · rw [searchLookup_set_ne "pageIndex" "pageSize" _ _ hne,
        searchLookup_delete_ne "pageIndex" "pageSize" _ hne, searchLookup_delete_self]

theorem C6_amended_witness :
    pageSizeSelectOnChange [10, 20, 30, 40, 50] 10 (some 95) ⟨2, 10⟩ 20 =
      some ⟨some 1, some 20⟩ ∧
    pageSizeSelectOnChangeURL ⟨2, 10⟩ 20 = ⟨0, 20⟩ ∧
    searchLookup "pageIndex"
      (updateURLWithPagination (pageSizeSelectOnChangeURL ⟨2, 10⟩ 20) 10
        [("filter", SearchValue.str "x")]) = none := by
  have h := C6_amended [10, 20, 30, 40, 50] 10 (some 95) ⟨2, 10⟩ 20 (by decide) (by decide)
    (by decide) (by decide) (by decide) (by decide)
  exact ⟨h.1.trans (by decide), (h.2 ⟨2, 10⟩ 20 10 [("filter", SearchValue.str "x")]).1,
    (h.2 ⟨2, 10⟩ 20 10 [("filter", SearchValue.str "x")]).2⟩

/-- Claim C8, counterexample: searchParamsToPagination from
DataTableHelpers.ts does not replace semantically invalid fields by their
defaults: a stored pageIndex of -5 and a pageSize of 7 (not in the allowed
set, default 10) decode to exactly -5 and 7. -/
theorem C8_counterexample :
    searchParamsToPagination ⟨some (-5), some 7, none, none⟩ 10 = ⟨-5, 7⟩ ∧
    (-5 : Int) ≠ 0 ∧ (7 : Int) ∉ ([10, 20, 30, 40, 50] : List Int) := by decide

/-- Claim C8, amended: decoding is total in both decoders, but only
getPaginationFromURL of src/components/DataTable.tsx substitutes defaults
for malformed (non-numeric), negative pageIndex, or out-of-set pageSize
values, and its decoded pageIndex is always non-negative;
searchParamsToPagination of DataTableHelpers.ts substitutes defaults only
for absent fields and passes present values through unvalidated. -/
theorem C8_amended :
    (∀ (searchParams : DataTableSearchParams) (defaultPageSize : Int),
      searchParamsToPagination searchParams defaultPageSize =
        ⟨searchParams.pageIndex.getD 0, searchParams.pageSize.getD defaultPageSize⟩) ∧
    (∀ (urlPageIndex urlPageSize : Option String) (pageSizeOptions : List Int)
        (defaultPageSize : Int),
      0 ≤ (getPaginationFromURL urlPageIndex urlPageSize pageSizeOptions
        defaultPageSize).pageIndex) ∧
    (∀ (s : String) (pageSizeOptions : List Int) (defaultPageSize : Int),
      jsParseInt s = none →
      getPaginationFromURL (some s) (some s) pageSizeOptions defaultPageSize =
        ⟨0, defaultPageSize⟩) ∧
    (∀ (s : String) (n : Int) (pageSizeOptions : List Int) (defaultPageSize : Int),
      jsParseInt s = some n → n < 0 →
      (getPaginationFromURL (some s) none pageSizeOptions defaultPageSize).pageIndex = 0) ∧
    (∀ (s : String) (n : Int) (pageSizeOptions : List Int) (defaultPageSize : Int),
      jsParseInt s = some n → n ∉ pageSizeOptions →
      (getPaginationFromURL none (some s) pageSizeOptions defaultPageSize).pageSize =
        defaultPageSize) := by
  refine ⟨fun _ _ => rfl, ?_, ?_, ?_, ?_⟩
  · intro urlPageIndex urlPageSize pageSizeOptions defaultPageSize
    simp only [getPaginationFromURL]
    cases urlPageIndex with
    | none => simp
    | some s =>
        cases h : jsParseInt s with
        | none => simp [h]
        | some n =>
            by_cases hn : 0 ≤ n
            · simp [h, hn]
            · simp [h, hn]
  · intro s pageSizeOptions defaultPageSize h
    simp [getPaginationFromURL, h]
  · intro s n pageSizeOptions defaultPageSize h hn
    simp only [getPaginationFromURL, h]
    rw [if_neg (by omega)]
  · intro s n pageSizeOptions defaultPageSize h hn
    simp only [getPaginationFromURL, h]
    rw [if_neg (by intro hc; exact hn hc.2)]

theorem C8_amended_witness :
    getPaginationFromURL (some "abc") (some "abc") [10, 20, 30, 40, 50] 10 = ⟨0, 10⟩ ∧
    (getPaginationFromURL (some "-5") none [10, 20, 30, 40, 50] 10).pageIndex = 0 ∧
    (getPaginationFromURL none (some "7") [10, 20, 30, 40, 50] 10).pageSize = 10 :=
  ⟨C8_amended.2.2.1 "abc" [10, 20, 30, 40, 50] 10 (by decide),
   C8_amended.2.2.2.1 "-5" (-5) [10, 20, 30, 40, 50] 10 (by decide) (by decide),
   C8_amended.2.2.2.2 "7" 7 [10, 20, 30, 40, 50] 10 (by decide) (by decide)⟩

/-- Claim C10: every URL-persistence handler of the repository leaves every
search key other than pageIndex, pageSize, sortId and sortDesc untouched:
the two handlers of createSearchParamHandlers in DataTableHelpers.ts, the
two handlers of useDataTableURLState in src/unnamed/part_002, and
updateURLWithPagination of src/components/DataTable.tsx. -/
theorem C10_frame (k : String)
    (h1 : k ≠ "pageIndex") (h2 : k ≠ "pageSize") (h3 : k ≠ "sortId")
    (h4 : k ≠ "sortDesc") (pagination : Pagination) (defaultPageSize : Int)
    (columnSort defaultSort : ColumnSort) (prev : Search) :
    searchLookup k (onPaginationChangeSearch pagination defaultPageSize prev) =
      searchLookup k prev ∧
    searchLookup k (onColumnSortChangeSearch columnSort defaultSort prev) =
      searchLookup k prev ∧
    searchLookup k (updateURLWithPagination pagination defaultPageSize prev) =
      searchLookup k prev ∧
    searchLookup k (urlStateOnPaginationChange pagination defaultPageSize prev) =
      searchLookup k prev ∧
    searchLookup k (urlStateOnSortingChange columnSort defaultSort prev) =
      searchLookup k prev := by
  refine ⟨?_, ?_, ?_, ?_, ?_⟩
  · rw [onPaginationChangeSearch,
      searchLookup_updateNum_ne k "pageSize" _ _ h2,
      searchLookup_updateNum_ne k "pageIndex" _ _ h1]
  · rw [onColumnSortChangeSearch,
      searchLookup_updateBool_ne k "sortDesc" _ _ h4,
      searchLookup_updateStr_ne k "sortId" _ _ h3]
  · have dI : ∀ s : Search, searchLookup k (searchDelete "pageIndex" s) = searchLookup k s :=
      fun s => searchLookup_delete_ne k "pageIndex" s h1
    have dS : ∀ s : Search, searchLookup k (searchDelete "pageSize" s) = searchLookup k s :=
      fun s => searchLookup_delete_ne k "pageSize" s h2
    have sI : ∀ (v : SearchValue) (s : Search),
        searchLookup k (searchSet "pageIndex" v s) = searchLookup k s :=
      fun v s => searchLookup_set_ne k "pageIndex" v s h1
    have sS : ∀ (v : SearchValue) (s : Search),
        searchLookup k (searchSet "pageSize" v s) = searchLookup k s :=
      fun v s => searchLookup_set_ne k "pageSize" v s h2
    simp only [updateURLWithPagination]
    split_ifs <;> simp only [dI, dS, sI, sS]
  · rw [urlStateOnPaginationChange,
      searchLookup_updateNum_ne k "pageSize" _ _ h2,
      searchLookup_updateNum_ne k "pageIndex" _ _ h1]
  · rw [urlStateOnSortingChange,
      searchLookup_updateBool_ne k "sortDesc" _ _ h4,
      searchLookup_updateStr_ne k "sortId" _ _ h3]

theorem C10_frame_witness :
    searchLookup "filter" (onPaginationChangeSearch ⟨3, 20⟩ 10
        [("filter", SearchValue.str "x")]) =
      searchLookup "filter" [("filter", SearchValue.str "x")] ∧
    searchLookup "filter" (onColumnSortChangeSearch ⟨"name", true⟩ ⟨"id", false⟩
        [("filter", SearchValue.str "x")]) =
      searchLookup "filter" [("filter", SearchValue.str "x")] ∧
    searchLookup "filter" (updateURLWithPagination ⟨3, 20⟩ 10
        [("filter", SearchValue.str "x")]) =
      searchLookup "filter" [("filter", SearchValue.str "x")] ∧
    searchLookup "filter" (urlStateOnPaginationChange ⟨3, 20⟩ 10
        [("filter", SearchValue.str "x")]) =
      searchLookup "filter" [("filter", SearchValue.str "x")] ∧
    searchLookup "filter" (urlStateOnSortingChange ⟨"name", true⟩ ⟨"id", false⟩
        [("filter", SearchValue.str "x")]) =
      searchLookup "filter" [("filter", SearchValue.str "x")] :=
  C10_frame "filter" (by decide) (by decide) (by decide) (by decide)
    ⟨3, 20⟩ 10 ⟨"name", true⟩ ⟨"id", false⟩ [("filter", SearchValue.str "x")]
